import Mathlib

/-!
Verification development for the django-drf bookstore API.

Shallow embedding of the data model (api/models.py), the serializers
(api/serializers.py), the permission predicates (api/permissions.py) and the
request dispatch of BookViewSet / ReviewViewSet (api/views.py), together with
theorems settling the specification claims about them.
-/

/-- Requesting identity: Django request.user is either an authenticated User,
identified here by its primary key, or AnonymousUser. -/
inductive Identity where
  | anon : Identity
  | user (uid : Nat) : Identity
deriving DecidableEq

/-- Django is_authenticated: true on User instances, false on AnonymousUser. -/
def Identity.isAuthenticated : Identity → Bool
  | .anon => false
  | .user _ => true

/-- Django model equality obj.user == request.user for a Review owner: two User
rows are equal when their primary keys agree; AnonymousUser equals no User. -/
def identityOwns (ident : Identity) (ownerUid : Nat) : Bool :=
  match ident with
  | .anon => false
  | .user uid => uid == ownerUid

/-- HTTP request method. -/
inductive Method where
  | get
  | head
  | options
  | post
  | put
  | patch
  | delete
deriving DecidableEq

/-- rest_framework permissions.SAFE_METHODS, that is GET, HEAD and OPTIONS. -/
def Method.isSafe : Method → Bool
  | .get => true
  | .head => true
  | .options => true
  | .post => false
  | .put => false
  | .patch => false
  | .delete => false

/-- Author row (api/models.py lines 6-29), fields relevant to the claims. -/
structure Author where
  id : Nat
  first_name : String
  last_name : String
  email : String
deriving DecidableEq

/-- Publisher row (api/models.py lines 62-81). -/
structure Publisher where
  id : Nat
  name : String
  city : String
  country : String
deriving DecidableEq

/-- Book row (api/models.py lines 84-149): author is a required foreign key
with on_delete=CASCADE, publisher is a nullable foreign key with
on_delete=SET_NULL. -/
structure Book where
  id : Nat
  title : String
  subtitle : String
  isbn : String
  authorId : Nat
  publisherId : Option Nat
  publication_date : String
  pages : Int
  price : ℚ
  description : String
  status : String
deriving DecidableEq

/-- Review row (api/models.py lines 152-184): foreign keys to Book and User,
an integer rating, title and comment. -/
structure Review where
  id : Nat
  bookId : Nat
  userId : Nat
  rating : Int
  title : String
  comment : String
deriving DecidableEq

/-- Relational store state: one row list per table, plus the autoincrement
counter for Review primary keys. -/
structure Db where
  authors : List Author
  publishers : List Publisher
  books : List Book
  reviews : List Review
  nextReviewId : Nat
deriving DecidableEq

/-- rest_framework IsAuthenticatedOrReadOnly.has_permission: safe methods are
always allowed, writes require an authenticated identity. -/
def isAuthenticatedOrReadOnly (ident : Identity) (m : Method) : Bool :=
  m.isSafe || ident.isAuthenticated

/-- IsReviewOwnerOrReadOnly.has_object_permission (api/permissions.py lines
17-25): safe methods allowed to anyone, otherwise obj.user == request.user. -/
def isReviewOwnerOrReadOnly (ident : Identity) (m : Method) (r : Review) : Bool :=
  m.isSafe || identityOwns ident r.userId

/-- Status produced when a DRF permission check fails: APIView.permission_denied
raises NotAuthenticated (401) when the request carries no successful
authentication and authenticators are configured — config/settings.py installs
TokenAuthentication and SessionAuthentication — and PermissionDenied (403)
otherwise. The repository's own tests (api/tests.py) assert exactly this split. -/
def denyStatus (ident : Identity) : Nat :=
  if ident.isAuthenticated then 403 else 401

/-- Rows of the reviews table referencing a book: the reverse foreign-key set
book.reviews used by the queryset annotations in api/views.py lines 209-212. -/
def bookReviews (db : Db) (bid : Nat) : List Review :=
  db.reviews.filter (fun r => r.bookId == bid)

/-- SQL AVG aggregate over a list of integer values: NULL on the empty set,
otherwise the exact mean. -/
def sqlAvg (xs : List Int) : Option ℚ :=
  if xs = [] then none else some ((xs.sum : ℚ) / (xs.length : ℚ))

/-- BookViewSet queryset annotation reviews_count=Count('reviews')
(api/views.py line 210): a count over the review rows joining the book. -/
def annotatedReviewsCount (db : Db) (bid : Nat) : Nat :=
  db.reviews.countP (fun r => r.bookId == bid)

/-- BookViewSet queryset annotation average_rating=Avg('reviews__rating')
(api/views.py line 211): SQL AVG over the joined review ratings. -/
def annotatedAverageRating (db : Db) (bid : Nat) : Option ℚ :=
  sqlAvg ((bookReviews db bid).map (fun r => r.rating))

/-- Wire record of BookListSerializer (api/serializers.py lines 52-62); field
average_rating is a read-only FloatField carrying the annotated value as is. -/
structure BookListItem where
  id : Nat
  title : String
  price : ℚ
  status : String
  average_rating : Option ℚ
  publication_date : String
deriving DecidableEq

/-- BookListSerializer applied to an annotated book row. -/
def serializeBookList (db : Db) (b : Book) : BookListItem :=
  { id := b.id, title := b.title, price := b.price, status := b.status,
    average_rating := annotatedAverageRating db b.id,
    publication_date := b.publication_date }

/-- Wire record of BookDetailSerializer (api/serializers.py lines 65-99);
reviews_count is a read-only IntegerField and average_rating a read-only
FloatField, both carrying the annotated values as is. -/
structure BookDetail where
  id : Nat
  title : String
  subtitle : String
  isbn : String
  authorId : Nat
  publisherId : Option Nat
  publication_date : String
  pages : Int
  price : ℚ
  description : String
  status : String
  reviews_count : Nat
  average_rating : Option ℚ
deriving DecidableEq

/-- BookDetailSerializer applied to an annotated book row. -/
def serializeBookDetail (db : Db) (b : Book) : BookDetail :=
  { id := b.id, title := b.title, subtitle := b.subtitle, isbn := b.isbn,
    authorId := b.authorId, publisherId := b.publisherId,
    publication_date := b.publication_date, pages := b.pages, price := b.price,
    description := b.description, status := b.status,
    reviews_count := annotatedReviewsCount db b.id,
    average_rating := annotatedAverageRating db b.id }

/-- Django deletion of an Author row: Book.author has on_delete=CASCADE
(api/models.py lines 101-105), so the author's books are collected and
deleted, and Review.book has on_delete=CASCADE so the reviews of those books
are deleted with them. -/
def deleteAuthor (db : Db) (aid : Nat) : Db :=
  { db with
    authors := db.authors.filter (fun a => a.id != aid),
    books := db.books.filter (fun b => b.authorId != aid),
    reviews := db.reviews.filter (fun r =>
      !((db.books.filter (fun b => b.authorId == aid)).any
        (fun b => b.id == r.bookId))) }

/-- Django deletion of a Publisher row: Book.publisher has on_delete=SET_NULL
(api/models.py lines 111-117), so every referencing book keeps its row with
the publisher field set to NULL and no other field touched. -/
def deletePublisher (db : Db) (pid : Nat) : Db :=
  { db with
    publishers := db.publishers.filter (fun p => p.id != pid),
    books := db.books.map (fun b =>
      if b.publisherId == some pid then { b with publisherId := none } else b) }

/-- Primary-key lookup of a book, as in DRF get_object. -/
def findBook (db : Db) (bid : Nat) : Option Book :=
  db.books.find? (fun b => b.id == bid)

/-- Primary-key lookup of a review, as in DRF get_object. -/
def findReview (db : Db) (rid : Nat) : Option Review :=
  db.reviews.find? (fun r => r.id == rid)

/-- Object-level request on BookViewSet (api/views.py lines 193-227):
permission_classes is exactly IsAuthenticatedOrReadOnly, so the request-level
check is the only permission gate and no object-level restriction exists
(BasePermission.has_object_permission defaults to True); then get_object (404
when absent) and the handler. DELETE removes the row (reviews cascade); PUT and
PATCH update the row, modelled here on the title field. -/
def bookObjectDispatch (db : Db) (ident : Identity) (m : Method) (bid : Nat)
    (newTitle : Option String) : Nat × Db :=
  if !(isAuthenticatedOrReadOnly ident m) then (denyStatus ident, db)
  else
    match findBook db bid with
    | none => (404, db)
    | some b =>
      match m with
      | .delete =>
        (204, { db with books := db.books.filter (fun x => x.id != b.id),
                        reviews := db.reviews.filter (fun r => r.bookId != b.id) })
      | .put | .patch =>
        (200, { db with books := db.books.map (fun x =>
            if x.id == b.id then { x with title := newTitle.getD x.title } else x) })
      | _ => (200, db)

/-- Handler on a review object once all permission checks have passed: DELETE
removes the row; PUT and PATCH update it, modelled on the rating field with
the serializer's rating validation re-run; safe methods read. -/
def applyReviewWrite (db : Db) (m : Method) (r : Review) (newRating : Option Int) :
    Nat × Db :=
  match m with
  | .delete => (204, { db with reviews := db.reviews.filter (fun x => x.id != r.id) })
  | .put | .patch =>
    match newRating with
    | some v =>
      if 1 ≤ v ∧ v ≤ 5 then
        (200, { db with reviews := db.reviews.map (fun x =>
            if x.id == r.id then { x with rating := v } else x) })
      else (400, db)
    | none => (200, db)
  | _ => (200, db)

/-- Object-level request on ReviewViewSet (api/views.py lines 274-301):
permission_classes is IsAuthenticatedOrReadOnly plus IsReviewOwnerOrReadOnly.
Request-level check first, then get_object (404 when absent), then the
object-level owner check, then the handler. Denials never reach the handler,
so the store is returned unchanged on every denial. -/
def reviewObjectDispatch (db : Db) (ident : Identity) (m : Method) (rid : Nat)
    (newRating : Option Int) : Nat × Db :=
  if !(isAuthenticatedOrReadOnly ident m) then (denyStatus ident, db)
  else
    match findReview db rid with
    | none => (404, db)
    | some r =>
      if !(isReviewOwnerOrReadOnly ident m r) then (denyStatus ident, db)
      else applyReviewWrite db m r newRating

/-- Inbound payload of a review-creation request. The user component models a
user value supplied in the request body; the serializer declares user as a
read-only field (api/serializers.py line 103) so it is never read. -/
structure ReviewInput where
  book : Nat
  user : Option Nat
  rating : Int
  title : String
  comment : String
deriving DecidableEq

/-- Field-level validation of ReviewSerializer.to_internal_value: book is a
PrimaryKeyRelatedField that must reference an existing Book row, and rating
runs the model validators MinValueValidator(1) / MaxValueValidator(5) together
with ReviewSerializer.validate_rating (api/serializers.py lines 114-118).
Errors are collected per field name. -/
def reviewFieldErrors (db : Db) (input : ReviewInput) : List String :=
  (if db.books.any (fun b => b.id == input.book) then [] else ["book"]) ++
  (if 1 ≤ input.rating ∧ input.rating ≤ 5 then [] else ["rating"])

/-- Outcome of a review-creation request. -/
inductive CreateReviewResult where
  | denied (status : Nat)
  | invalid (status : Nat) (fields : List String)
  | conflict (status : Nat)
  | created (status : Nat) (r : Review)
deriving DecidableEq

/-- POST on ReviewViewSet: an anonymous request fails IsAuthenticatedOrReadOnly
and is rejected 401 before any validation; otherwise the serializer validates
the fields (400 with the field errors on failure), the unique_together
['book', 'user'] constraint of api/models.py line 180 rejects a duplicate
(book, user) pair, and finally ReviewSerializer.create together with
ReviewViewSet.perform_create store the row with user := request.user
(api/serializers.py lines 120-124, api/views.py lines 297-301), the inbound
user value playing no part. -/
def createReview : Db → Identity → ReviewInput → CreateReviewResult × Db
  | db, .anon, _ => (CreateReviewResult.denied 401, db)
  | db, .user uid, input =>
    if reviewFieldErrors db input = [] then
      if db.reviews.any (fun r => r.bookId == input.book && r.userId == uid) then
        (CreateReviewResult.conflict 400, db)
      else
        (CreateReviewResult.created 201
          { id := db.nextReviewId, bookId := input.book, userId := uid,
            rating := input.rating, title := input.title, comment := input.comment },
         { db with
            reviews := db.reviews ++
              [{ id := db.nextReviewId, bookId := input.book, userId := uid,
                 rating := input.rating, title := input.title,
                 comment := input.comment }],
            nextReviewId := db.nextReviewId + 1 })
    else (CreateReviewResult.invalid 400 (reviewFieldErrors db input), db)

/-- Python truthiness of request.query_params.get applied to my_reviews: None
(parameter absent) and the empty string are falsy, every other string truthy. -/
def paramTruthy : Option String → Bool
  | none => false
  | some s => !(s == "")

/-- ReviewViewSet.get_queryset (api/views.py lines 303-311): the review list is
filtered to the requesting user's rows whenever the my_reviews parameter is
truthy, and returned whole otherwise. An anonymous requester is modelled as
owning no review row. -/
def reviewListQueryset (db : Db) (ident : Identity) (myReviews : Option String) :
    List Review :=
  if paramTruthy myReviews then
    db.reviews.filter (fun r => identityOwns ident r.userId)
  else db.reviews

/-- Modelled from the spec: rounding a rational to 2 decimal places. The
serializers under src contain no rounding at all; this definition follows the
spec's words "rounded to 2 decimal places" for comparison in claim C2. -/
def round2 (q : ℚ) : ℚ := ((⌊q * 100 + 1 / 2⌋ : ℤ) : ℚ) / 100

/-- Modelled from the spec: "the book's author-identity". The data model links
no User to an Author, so the most charitable reading matches the requesting
user id against the book's author id. Spec side of claim C1. -/
def isBookAuthorIdentity (ident : Identity) (b : Book) : Prop :=
  ident = Identity.user b.authorId

/-- Concrete author used by the concrete store below. -/
def demoAuthor1 : Author :=
  { id := 1, first_name := "Ann", last_name := "Ames", email := "a" }

/-- Second concrete author. -/
def demoAuthor2 : Author :=
  { id := 2, first_name := "Bob", last_name := "Blue", email := "b" }

/-- Concrete publisher referenced by the first demo book. -/
def demoPublisher : Publisher :=
  { id := 5, name := "P", city := "C", country := "K" }

/-- Concrete book with three reviews, authored by author 1, published by
publisher 5. -/
def demoBook1 : Book :=
  { id := 1, title := "One", subtitle := "", isbn := "i1", authorId := 1,
    publisherId := some 5, publication_date := "2020-01-01", pages := 100,
    price := 10, description := "", status := "available" }

/-- Concrete book with no reviews, authored by author 2, no publisher. -/
def demoBook2 : Book :=
  { id := 2, title := "Two", subtitle := "", isbn := "i2", authorId := 2,
    publisherId := none, publication_date := "2021-01-01", pages := 200,
    price := 20, description := "", status := "available" }

/-- Concrete review of book 1 by user 1 with rating 1. -/
def demoReview1 : Review :=
  { id := 1, bookId := 1, userId := 1, rating := 1, title := "r1", comment := "" }

/-- Concrete review of book 1 by user 2 with rating 1. -/
def demoReview2 : Review :=
  { id := 2, bookId := 1, userId := 2, rating := 1, title := "r2", comment := "" }

/-- Concrete review of book 1 by user 3 with rating 2. -/
def demoReview3 : Review :=
  { id := 3, bookId := 1, userId := 3, rating := 2, title := "r3", comment := "" }

/-- Concrete store: two authors, one publisher, two books, three reviews of
book 1 with ratings 1, 1 and 2 (mean 4/3). -/
def demoDb : Db :=
  { authors := [demoAuthor1, demoAuthor2],
    publishers := [demoPublisher],
    books := [demoBook1, demoBook2],
    reviews := [demoReview1, demoReview2, demoReview3],
    nextReviewId := 4 }

/-- Helper: the annotated average is null on zero reviews and otherwise the
exact mean of the review ratings. -/
theorem annotatedAverageRating_eq_mean (db : Db) (bid : Nat) :
    annotatedAverageRating db bid =
      if bookReviews db bid = [] then none
      else some (((bookReviews db bid).map (fun r => (r.rating : ℚ))).sum /
        ((bookReviews db bid).length : ℚ)) := by
  unfold annotatedAverageRating sqlAvg
  by_cases h : bookReviews db bid = []
  · simp [h]
  · rw [if_neg h, if_neg (by simpa using h)]
    rw [Int.cast_list_sum, List.map_map, List.length_map]
    rfl

/-- Store with only the review rows of the demo store, used to witness that the
average depends on the current review rows alone. -/
def demoDbStripped : Db :=
  { authors := [], publishers := [], books := [],
    reviews := demoDb.reviews, nextReviewId := 0 }

/-- C3: the annotated average_rating is the arithmetic mean of the ratings of
all reviews referencing the book, null when the book has zero reviews, and is
a function of the current review rows alone — recomputed at read time, never
stored on the Book row. -/
theorem claim_c3_average_rating (db : Db) (bid : Nat) :
    (annotatedAverageRating db bid =
      if bookReviews db bid = [] then none
      else some (((bookReviews db bid).map (fun r => (r.rating : ℚ))).sum /
        ((bookReviews db bid).length : ℚ))) ∧
    (∀ db2 : Db, db2.reviews = db.reviews →
      annotatedAverageRating db2 bid = annotatedAverageRating db bid) := by
  refine ⟨annotatedAverageRating_eq_mean db bid, ?_⟩
  intro db2 h
  unfold annotatedAverageRating bookReviews
  rw [h]

/-- Witness for C3 at the concrete store: the average over a store holding only
the same review rows agrees with the average over the full demo store. -/
theorem claim_c3_witness :
    annotatedAverageRating demoDbStripped 1 = annotatedAverageRating demoDb 1 :=
  (claim_c3_average_rating demoDb 1).2 demoDbStripped rfl

/-- C8: the reviews_count carried by the detail response equals the number of
Review rows referencing the book. -/
theorem claim_c8_reviews_count (db : Db) (b : Book) :
    (serializeBookDetail db b).reviews_count =
      (db.reviews.filter (fun r => r.bookId == b.id)).length := by
  simp [serializeBookDetail, annotatedReviewsCount, List.countP_eq_length_filter]

/-- C2 counterexample: demo book 1 has review ratings 1, 1 and 2, whose mean is
4/3; the detail response carries exactly 4/3, which is not the mean rounded to
2 decimal places, refuting the rounded-detail half of the claim. -/
theorem claim_c2_counterexample :
    (serializeBookDetail demoDb demoBook1).average_rating = some (4 / 3 : ℚ) ∧
    round2 (4 / 3 : ℚ) ≠ (4 / 3 : ℚ) := by
  constructor
  · show annotatedAverageRating demoDb demoBook1.id = some (4 / 3 : ℚ)
    rw [annotatedAverageRating_eq_mean,
      show bookReviews demoDb demoBook1.id = [demoReview1, demoReview2, demoReview3]
        by decide]
    simp [demoReview1, demoReview2, demoReview3]
    norm_num
  · unfold round2
    rw [show ⌊(4 : ℚ) / 3 * 100 + 1 / 2⌋ = 133 by
      rw [Int.floor_eq_iff]
      norm_num]
    norm_num

/-- C2 amended: for every book with at least one review, the detail response
and the list response both carry the same value, namely the unrounded mean of
the review ratings; no rounding occurs in either serializer. -/
theorem claim_c2_amended (db : Db) (b : Book) (h : bookReviews db b.id ≠ []) :
    (serializeBookDetail db b).average_rating =
      some (((bookReviews db b.id).map (fun r => (r.rating : ℚ))).sum /
        ((bookReviews db b.id).length : ℚ)) ∧
    (serializeBookList db b).average_rating =
      (serializeBookDetail db b).average_rating := by
  refine ⟨?_, rfl⟩
  show annotatedAverageRating db b.id = _
  rw [annotatedAverageRating_eq_mean, if_neg h]

/-- Witness for C2 amended at the concrete store. -/
theorem claim_c2_amended_witness :
    (serializeBookList demoDb demoBook1).average_rating =
      (serializeBookDetail demoDb demoBook1).average_rating :=
  (claim_c2_amended demoDb demoBook1 (by decide)).2

/-- C4: after deleting an author, a book row remains exactly when it was
present before and was not written by that author: every book of the deleted
author is cascade-deleted, every other book survives. -/
theorem claim_c4_author_cascade (db : Db) (aid : Nat) (b : Book) :
    b ∈ (deleteAuthor db aid).books ↔ b ∈ db.books ∧ b.authorId ≠ aid := by
  simp [deleteAuthor, List.mem_filter]

/-- C5: deleting a publisher keeps every book row in place (same count, same
positions) and replaces each book by the same record with the publisher field
set to null exactly when it referenced the deleted publisher — all other
fields unchanged, which the record-update expresses. -/
theorem claim_c5_publisher_set_null (db : Db) (pid : Nat) :
    (deletePublisher db pid).books.length = db.books.length ∧
    (∀ i : Nat, ∀ b : Book, db.books[i]? = some b →
      (deletePublisher db pid).books[i]? =
        some { b with publisherId :=
          if b.publisherId = some pid then none else b.publisherId }) := by
  constructor
  · simp [deletePublisher]
  · intro i b hb
    simp only [deletePublisher]
    rw [List.getElem?_map, hb]
    by_cases h : b.publisherId = some pid
    · simp [h]
    · simp [h]

/-- Witness for C5: deleting publisher 5 keeps demo book 1 in position 0 with
its publisher nullified. -/
theorem claim_c5_witness :
    (deletePublisher demoDb 5).books[0]? =
      some { demoBook1 with publisherId :=
        if demoBook1.publisherId = some 5 then none else demoBook1.publisherId } :=
  (claim_c5_publisher_set_null demoDb 5).2 0 demoBook1 rfl

/-- C1 counterexample: user 7 is not the author-identity of demo book 1
(written by author 1), yet its DELETE request on the book is permitted and
performed (status 204), refuting the author-only write claim. -/
theorem claim_c1_counterexample :
    findBook demoDb 1 = some demoBook1 ∧
    ¬ isBookAuthorIdentity (Identity.user 7) demoBook1 ∧
    (bookObjectDispatch demoDb (Identity.user 7) Method.delete 1 none).1 = 204 := by
  refine ⟨rfl, ?_, by decide⟩
  unfold isBookAuthorIdentity
  decide

/-- C1 amended: on an existing book, a request is permitted exactly when the
method is safe or the identity is authenticated; BookViewSet carries only
IsAuthenticatedOrReadOnly, so the book's author plays no part in the
decision and reads are always permitted. -/
theorem claim_c1_amended (db : Db) (ident : Identity) (m : Method) (bid : Nat)
    (b : Book) (hfind : findBook db bid = some b) :
    ((bookObjectDispatch db ident m bid none).1 ≠ 401 ∧
     (bookObjectDispatch db ident m bid none).1 ≠ 403) ↔
    (m.isSafe = true ∨ ident.isAuthenticated = true) := by
  cases ident <;> cases m <;>
    simp [bookObjectDispatch, hfind, isAuthenticatedOrReadOnly, denyStatus,
      Identity.isAuthenticated, Method.isSafe]

/-- Witness for C1 amended: instantiated at the authenticated non-author
user 7 and the DELETE method on demo book 1. -/
theorem claim_c1_amended_witness :
    ((bookObjectDispatch demoDb (Identity.user 7) Method.delete 1 none).1 ≠ 401 ∧
     (bookObjectDispatch demoDb (Identity.user 7) Method.delete 1 none).1 ≠ 403) ↔
    (Method.delete.isSafe = true ∨ (Identity.user 7).isAuthenticated = true) :=
  claim_c1_amended demoDb (Identity.user 7) Method.delete 1 demoBook1 rfl

/-- C6 counterexample: AnonymousUser is a requesting identity distinct from
the owner of demo review 1, yet its PATCH is rejected with 401, not 403,
refuting the claim's universal 403. -/
theorem claim_c6_counterexample :
    findReview demoDb 1 = some demoReview1 ∧
    identityOwns Identity.anon demoReview1.userId = false ∧
    (reviewObjectDispatch demoDb Identity.anon Method.patch 1 none).1 = 401 ∧
    (reviewObjectDispatch demoDb Identity.anon Method.patch 1 none).1 ≠ 403 := by
  refine ⟨rfl, rfl, by decide, by decide⟩

/-- C6 amended: a PATCH or DELETE on an existing review by a non-owner is
rejected with 403 when the requester is authenticated and with 401 when
anonymous, in both cases leaving the store unchanged; GET requests are never
rejected by a permission check and leave the store unchanged. -/
theorem claim_c6_amended (db : Db) (ident : Identity) (rid : Nat)
    (nr : Option Int) :
    (∀ m : Method, ∀ r : Review, findReview db rid = some r →
      identityOwns ident r.userId = false →
      m = Method.patch ∨ m = Method.delete →
      reviewObjectDispatch db ident m rid nr =
        (if ident.isAuthenticated then 403 else 401, db)) ∧
    ((reviewObjectDispatch db ident Method.get rid nr).1 ≠ 401 ∧
     (reviewObjectDispatch db ident Method.get rid nr).1 ≠ 403 ∧
     (reviewObjectDispatch db ident Method.get rid nr).2 = db) := by
  constructor
  · intro m r hfind hown hm
    rcases hm with h | h <;> subst h <;> cases ident <;>
      simp [reviewObjectDispatch, hfind, isAuthenticatedOrReadOnly,
        isReviewOwnerOrReadOnly, denyStatus, Identity.isAuthenticated,
        Method.isSafe, hown]
  · cases h : findReview db rid with
    | none => simp [reviewObjectDispatch, h, isAuthenticatedOrReadOnly, Method.isSafe]
    | some r =>
      have hperm : isReviewOwnerOrReadOnly ident Method.get r = true := by
        simp [isReviewOwnerOrReadOnly, Method.isSafe]
      simp [reviewObjectDispatch, h, isAuthenticatedOrReadOnly, Method.isSafe,
        hperm, applyReviewWrite]

/-- Witness for C6 amended: authenticated user 2 is not the owner of demo
review 1; its PATCH yields 403 with the store unchanged. -/
theorem claim_c6_amended_witness :
    reviewObjectDispatch demoDb (Identity.user 2) Method.patch 1 none =
      (403, demoDb) := by
  have h := (claim_c6_amended demoDb (Identity.user 2) 1 none).1 Method.patch
    demoReview1 rfl rfl (Or.inl rfl)
  simpa using h

/-- C7: an authenticated creation attempt whose rating lies outside [1, 5] is
rejected with a 400 response carrying a field error scoped to the rating
field, and the store is unchanged — no review is created. -/
theorem claim_c7_bad_rating (db : Db) (uid : Nat) (input : ReviewInput)
    (h : ¬ (1 ≤ input.rating ∧ input.rating ≤ 5)) :
    createReview db (Identity.user uid) input =
      (CreateReviewResult.invalid 400 (reviewFieldErrors db input), db) ∧
    "rating" ∈ reviewFieldErrors db input := by
  have hmem : "rating" ∈ reviewFieldErrors db input := by
    unfold reviewFieldErrors
    rw [if_neg h]
    exact List.mem_append_right _ (List.mem_singleton.mpr rfl)
  have hne : reviewFieldErrors db input ≠ [] := by
    intro he
    rw [he] at hmem
    exact List.not_mem_nil _ hmem
  refine ⟨?_, hmem⟩
  simp only [createReview]
  rw [if_neg hne]

/-- Creation payload with rating 6, used to witness C7. -/
def c7Input : ReviewInput :=
  { book := 1, user := none, rating := 6, title := "t", comment := "c" }

/-- Witness for C7 at the concrete store and a rating of 6. -/
theorem claim_c7_witness :
    createReview demoDb (Identity.user 1) c7Input =
      (CreateReviewResult.invalid 400 (reviewFieldErrors demoDb c7Input), demoDb) ∧
    "rating" ∈ reviewFieldErrors demoDb c7Input :=
  claim_c7_bad_rating demoDb 1 c7Input (by decide)

/-- C9: whenever review creation succeeds for an authenticated user, the
stored review's user is the requesting identity, whatever user value the
request body carried. -/
theorem claim_c9_user_assigned (db : Db) (uid : Nat) (input : ReviewInput)
    (st : Nat) (r : Review) (db2 : Db)
    (h : createReview db (Identity.user uid) input =
      (CreateReviewResult.created st r, db2)) :
    r.userId = uid := by
  simp only [createReview] at h
  by_cases h1 : reviewFieldErrors db input = []
  · rw [if_pos h1] at h
    by_cases h2 :
        (db.reviews.any (fun x => x.bookId == input.book && x.userId == uid)) = true
    · rw [if_pos h2] at h
      simp at h
    · rw [if_neg h2] at h
      obtain ⟨h3, h4⟩ := Prod.mk.injEq .. ▸ h
      obtain ⟨h5, h6⟩ := CreateReviewResult.created.injEq .. ▸ h3
      rw [← h6]
  · rw [if_neg h1] at h
    simp at h

/-- Creation payload carrying user 999 in the body, used to witness C9. -/
def c9Input : ReviewInput :=
  { book := 2, user := some 999, rating := 4, title := "t", comment := "c" }

/-- Review row actually created from c9Input by user 9. -/
def c9Created : Review :=
  { id := 4, bookId := 2, userId := 9, rating := 4, title := "t", comment := "c" }

/-- Store state after user 9 creates a review from c9Input. -/
def c9DbAfter : Db :=
  { demoDb with reviews := demoDb.reviews ++ [c9Created], nextReviewId := 5 }

/-- Witness for C9: user 9 submits a body naming user 999; the created review
belongs to user 9. -/
theorem claim_c9_witness : c9Created.userId = 9 :=
  claim_c9_user_assigned demoDb 9 c9Input 201 c9Created c9DbAfter (by decide)

/-- C10: the my_reviews parameter restricts the review list to the requesting
user's rows for every non-empty value of the parameter, and an absent or
empty parameter leaves the list unfiltered. -/
theorem claim_c10_my_reviews (db : Db) (uid : Nat) (s : String) (h : s ≠ "") :
    reviewListQueryset db (Identity.user uid) (some s) =
      db.reviews.filter (fun r => r.userId == uid) ∧
    reviewListQueryset db (Identity.user uid) none = db.reviews ∧
    reviewListQueryset db (Identity.user uid) (some "") = db.reviews := by
  refine ⟨?_, rfl, rfl⟩
  unfold reviewListQueryset paramTruthy
  rw [if_pos]
  · congr 1
    funext r
    unfold identityOwns
    rw [Bool.eq_iff_iff, beq_iff_eq, beq_iff_eq]
    exact eq_comm
  · simp [h]

/-- Witness for C10: the value false still triggers the filter (only the
requesting user's review remains), while an absent or empty parameter
returns every review. -/
theorem claim_c10_witness :
    reviewListQueryset demoDb (Identity.user 1) (some "false") = [demoReview1] ∧
    reviewListQueryset demoDb (Identity.user 1) none = demoDb.reviews ∧
    reviewListQueryset demoDb (Identity.user 1) (some "") = demoDb.reviews := by
  have h := claim_c10_my_reviews demoDb 1 "false" (by decide)
  exact ⟨h.1.trans (by decide), h.2.1, h.2.2⟩
